import Mathlib

/-!
Verification development for the imagesort media cataloging program
(`src/imagesort/imagesort.py`).

The Python source is shallowly embedded: the SQLite-backed tables become
explicit Lean lists, lazy `Media` properties become pure functions over the
underlying file facts, exceptions become `Except` values, and the destination
filesystem becomes an explicit list of (path, content-hash) pairs.
-/

namespace ImageSortPy

/-- Equality of embedded fallible results is decidable, so that concrete
runs can be checked by `decide`. -/
instance exceptDecEq {ε α : Type} [DecidableEq ε] [DecidableEq α] :
    DecidableEq (Except ε α) := fun x y =>
  match x, y with
  | Except.error a, Except.error b =>
    if h : a = b then Decidable.isTrue (by rw [h])
    else Decidable.isFalse (by simp [h])
  | Except.ok a, Except.ok b =>
    if h : a = b then Decidable.isTrue (by rw [h])
    else Decidable.isFalse (by simp [h])
  | Except.error _, Except.ok _ => Decidable.isFalse (by simp)
  | Except.ok _, Except.error _ => Decidable.isFalse (by simp)

/-- Python runtime errors that the embedded code can raise. -/
inductive PyErr where
  /-- `KeyError`: a required metadata tag is absent from the exif mapping. -/
  | keyError
  /-- `TypeError`: subscripting `None`, e.g. `cur.fetchone()[0]` when the
  query returned no row, or `camera['make']` when the camera row is missing. -/
  | typeError
  /-- `ValueError`: `datetime.strptime` failed to parse the timestamp. -/
  | valueError
  /-- `sqlite3.IntegrityError`: a UNIQUE constraint was violated by INSERT. -/
  | integrityError
  /-- `Exception` raised by `Media.exif` when a tag appears twice. -/
  | duplicateTag
  /-- `AttributeError`: `ImageSort.verify` calls `self.db.delete_file`,
  a method the `DB` class does not define. -/
  | attributeErrorDeleteFile
  /-- `AttributeError`: `ImageSort.verify` calls `self.checksum_dont_match`,
  a method the `ImageSort` class does not define. -/
  | attributeErrorChecksumDontMatch
  /-- `FileNotFoundError` raised by `Media.__init__` or by reading a file. -/
  | fileNotFound
  /-- `Exception("No filename provided.")` raised by `Media.__init__`. -/
  | noFilename
deriving DecidableEq, Repr

/-- A `datetime.datetime` value restricted to the fields this program uses. -/
structure DateTime where
  year : Nat
  month : Nat
  day : Nat
  hour : Nat
  minute : Nat
  second : Nat
deriving DecidableEq, Repr

/-! ### Decimal rendering (Python `str`/`strftime` number output) -/

/-- The character for one decimal digit (mirrors `Nat.digitChar`). -/
def digit_char : Nat → Char
  | 0 => '0' | 1 => '1' | 2 => '2' | 3 => '3' | 4 => '4'
  | 5 => '5' | 6 => '6' | 7 => '7' | 8 => '8' | 9 => '9'
  | _ => '*'

/-- Fuel-driven decimal digit accumulation, least significant digit first
pushed onto `ds`.  `fuel = n + 1` always suffices. -/
def nat_decimal_core : Nat → Nat → List Char → List Char
  | 0, _, ds => ds
  | fuel + 1, n, ds =>
    if n < 10 then digit_char n :: ds
    else nat_decimal_core fuel (n / 10) (digit_char (n % 10) :: ds)

/-- Decimal rendering of a natural number, as Python `"%d"` prints it. -/
def nat_decimal (n : Nat) : String := ⟨nat_decimal_core (n + 1) n []⟩

/-- `strftime` zero-pads two-digit fields (`%m`, `%d`, `%H`, `%M`, `%S`). -/
def pad2 (n : Nat) : String := if n < 10 then "0" ++ nat_decimal n else nat_decimal n

/-! ### `datetime.strftime` for the directives this program uses -/

/-- One `strftime` directive.  `%Y` prints the year unpadded (glibc prints a
four-digit year for all years this program can produce, see `strptime`);
the two-digit fields are zero-padded. -/
def strftime_directive (t : DateTime) (c : Char) : String :=
  if c = 'Y' then nat_decimal t.year
  else if c = 'm' then pad2 t.month
  else if c = 'd' then pad2 t.day
  else if c = 'H' then pad2 t.hour
  else if c = 'M' then pad2 t.minute
  else if c = 'S' then pad2 t.second
  else String.mk ['%', c]

/-- Character-level `strftime` scanner. -/
def strftime_chars (t : DateTime) : List Char → String
  | [] => ""
  | '%' :: c :: rest => strftime_directive t c ++ strftime_chars t rest
  | c :: rest => String.mk [c] ++ strftime_chars t rest

/-- `t.strftime(fmt)` for the format strings this program passes. -/
def strftime (t : DateTime) (fmt : String) : String := strftime_chars t fmt.data

/-! ### `datetime.strptime` for the format `"%Y:%m:%d %H:%M:%S"` -/

/-- Numeric value of a decimal digit character, `none` otherwise. -/
def digitVal (c : Char) : Option Nat :=
  if c.isDigit then some (c.toNat - 48) else none

/-- `%Y`: exactly four digits (regex `\d\d\d\d` in `_strptime.TimeRE`). -/
def parse_year : List Char → Option (Nat × List Char)
  | a :: b :: c :: d :: rest =>
    match digitVal a, digitVal b, digitVal c, digitVal d with
    | some va, some vb, some vc, some vd =>
      some (va * 1000 + vb * 100 + vc * 10 + vd, rest)
    | _, _, _, _ => none
  | _ => none

/-- Two-digit-or-one-digit numeric field: the two-digit branch is taken when
the two-digit value satisfies `valid2`, otherwise the one-digit branch when
the single digit satisfies `valid1` (mirrors the alternation order of the
`_strptime.TimeRE` regexes; with this program's non-digit separators the
sequential reading agrees with regex backtracking). -/
def parse_num2 (valid2 valid1 : Nat → Bool) : List Char → Option (Nat × List Char)
  | a :: b :: rest =>
    match digitVal a, digitVal b with
    | some x, some y =>
      if valid2 (x * 10 + y) then some (x * 10 + y, rest)
      else if valid1 x then some (x, b :: rest)
      else none
    | some x, none => if valid1 x then some (x, b :: rest) else none
    | none, _ => none
  | [a] =>
    match digitVal a with
    | some x => if valid1 x then some (x, []) else none
    | none => none
  | [] => none

/-- Fields collected while parsing, with `_strptime`'s default values. -/
structure TimeFields where
  y : Nat := 1900
  mo : Nat := 1
  d : Nat := 1
  h : Nat := 0
  mi : Nat := 0
  s : Nat := 0
deriving DecidableEq, Repr

/-- Format-directed scan of the input (`_strptime` regex match).  Fails on a
mismatched literal, an invalid field, or unconverted trailing data. -/
def strptime_go : List Char → List Char → TimeFields → Option TimeFields
  | [], [], tf => some tf
  | [], _ :: _, _ => none
  | '%' :: 'Y' :: fr, input, tf =>
    (parse_year input).bind fun p => strptime_go fr p.2 { tf with y := p.1 }
  | '%' :: 'm' :: fr, input, tf =>
    (parse_num2 (fun v => 1 ≤ v && v ≤ 12) (fun v => 1 ≤ v && v ≤ 9) input).bind
      fun p => strptime_go fr p.2 { tf with mo := p.1 }
  | '%' :: 'd' :: fr, input, tf =>
    (parse_num2 (fun v => 1 ≤ v && v ≤ 31) (fun v => 1 ≤ v && v ≤ 9) input).bind
      fun p => strptime_go fr p.2 { tf with d := p.1 }
  | '%' :: 'H' :: fr, input, tf =>
    (parse_num2 (fun v => v ≤ 23) (fun v => v ≤ 9) input).bind
      fun p => strptime_go fr p.2 { tf with h := p.1 }
  | '%' :: 'M' :: fr, input, tf =>
    (parse_num2 (fun v => v ≤ 59) (fun v => v ≤ 9) input).bind
      fun p => strptime_go fr p.2 { tf with mi := p.1 }
  | '%' :: 'S' :: fr, input, tf =>
    (parse_num2 (fun v => v ≤ 61) (fun v => v ≤ 9) input).bind
      fun p => strptime_go fr p.2 { tf with s := p.1 }
  | '%' :: _ :: _, _, _ => none
  | ['%'], _, _ => none
  | c :: fr, i :: input, tf => if c = i then strptime_go fr input tf else none
  | _ :: _, [], _ => none

/-- Whether `y` is a Gregorian leap year (`calendar.isleap`). -/
def is_leap (y : Nat) : Bool :=
  (y % 4 = 0 && y % 100 ≠ 0) || y % 400 = 0

/-- Number of days in a month (`calendar.monthrange`). -/
def days_in_month (y m : Nat) : Nat :=
  if m = 2 then (if is_leap y then 29 else 28)
  else if m = 4 ∨ m = 6 ∨ m = 9 ∨ m = 11 then 30
  else 31

/-- The `datetime.datetime` constructor's range validation. -/
def datetime_mk (tf : TimeFields) : Option DateTime :=
  if 1 ≤ tf.y ∧ tf.y ≤ 9999 ∧ 1 ≤ tf.mo ∧ tf.mo ≤ 12 ∧
     1 ≤ tf.d ∧ tf.d ≤ days_in_month tf.y tf.mo ∧
     tf.h ≤ 23 ∧ tf.mi ≤ 59 ∧ tf.s ≤ 59 then
    some ⟨tf.y, tf.mo, tf.d, tf.h, tf.mi, tf.s⟩
  else none

/-- `datetime.datetime.strptime(s, fmt)`. -/
def strptime (s fmt : String) : Except PyErr DateTime :=
  match strptime_go fmt.data s.data {} with
  | none => Except.error PyErr.valueError
  | some tf =>
    match datetime_mk tf with
    | none => Except.error PyErr.valueError
    | some t => Except.ok t

/-! ### `os.path` helpers -/

/-- Whether the string begins with the path separator (`b.startswith(sep)`
inside `posixpath.join`). -/
def str_starts_with_slash (s : String) : Bool :=
  match s.data with
  | [] => false
  | c :: _ => c = '/'

/-- Whether the string ends with the path separator (`a.endswith(sep)`
inside `posixpath.join`). -/
def str_ends_with_slash (s : String) : Bool :=
  match s.data.getLast? with
  | some c => c = '/'
  | none => false

/-- `posixpath.join(a, b)`. -/
def path_join (a b : String) : String :=
  if str_starts_with_slash b then b
  else if a = "" ∨ str_ends_with_slash a then a ++ b
  else a ++ "/" ++ b

/-- Index of the last occurrence of `c` in `l`, if any. -/
def last_index_of (c : Char) (l : List Char) : Option Nat :=
  ((l.enum.filter (fun p => p.2 = c)).map (fun p => p.1)).getLast?

/-- `posixpath.splitext(p)[1]`: the extension including the leading dot, or
`""`.  The dot must come after the last separator, and at least one non-dot
character of the basename must precede it (leading dots are not extensions). -/
def splitext_ext (p : String) : String :=
  let chars := p.data
  let sepIndex : Int := match last_index_of '/' chars with
    | some i => (i : Int)
    | none => -1
  match last_index_of '.' chars with
  | none => ""
  | some dotIndex =>
    if sepIndex < (dotIndex : Int) then
      let filenameStart := (sepIndex + 1).toNat
      if (List.range dotIndex).any
          (fun i => filenameStart ≤ i ∧ chars.getD i '.' ≠ '.') then
        ⟨chars.drop dotIndex⟩
      else ""
    else ""

/-- `os.path.split(p)[1]`: the basename, everything after the last `/`. -/
def basename (p : String) : String :=
  match last_index_of '/' p.data with
  | none => p
  | some i => ⟨p.data.drop (i + 1)⟩

/-! ### Data model: the SQLite tables of `DB._init_db` -/

/-- A row of the `camera` table (`name UNIQUE, model UNIQUE, description,
make`). -/
structure Camera where
  name : String
  model : String
  description : String
  make : String
deriving DecidableEq, Repr

/-- A row of the `media` table (`filename_original, filename_new UNIQUE,
sha256sum UNIQUE, size, create_date, camera_id`). -/
structure MediaRow where
  filename_original : String
  filename_new : String
  sha256sum : String
  size : Nat
  create_date : DateTime
  camera_id : Nat
deriving DecidableEq, Repr

/-- The SQLite connection state.  `cameras` and `media` are the current
table contents as the connection sees them (rowid of a camera is its list
index plus one); `committed_media` is the durable snapshot of the `media`
table, advanced only by `db.commit()`.  `destination` is the single required
`settings` row, established interactively by `DB._init_db` before any other
operation runs. -/
structure DB where
  cameras : List Camera
  media : List MediaRow
  committed_media : List MediaRow
  destination : String
deriving DecidableEq, Repr

/-- `self.db.commit()`: make the buffered writes durable. -/
def DB.commit (db : DB) : DB := { db with committed_media := db.media }

/-- `DB.camera_model_exists`: `SELECT count(*) FROM camera WHERE model = ?`
compared against zero. -/
def DB.camera_model_exists (db : DB) (model : String) : Bool :=
  db.cameras.any (fun c => c.model = model)

/-- `DB.add_camera`: INSERT the camera row and commit.  The UNIQUE
constraints on `name` and `model` make a duplicate INSERT raise
`IntegrityError`. -/
def DB.add_camera (db : DB) (make model name desc : String) :
    Except PyErr DB :=
  if db.cameras.any (fun c => c.model = model ∨ c.name = name) then
    Except.error PyErr.integrityError
  else
    Except.ok (DB.commit
      { db with cameras := db.cameras ++ [⟨name, model, desc, make⟩] })

/-- `DB._get_camera_name_from_model`: `SELECT name FROM camera WHERE
model = ?`, then `fetchone()[0]`.  `fetchone()` yields `None` when the model
is unregistered, and `None[0]` raises `TypeError`, embedded as `none`. -/
def DB.get_camera_name_from_model (db : DB) (model : String) : Option String :=
  (db.cameras.find? (fun c => c.model = model)).map (fun c => c.name)

/-- `DB.camera_id_from_model`: `SELECT rowid FROM camera WHERE model = ?`,
then `fetchone()[0]`; `none` embeds the `TypeError` on an absent model. -/
def DB.camera_id_from_model (db : DB) (model : String) : Option Nat :=
  (db.cameras.findIdx? (fun c => c.model = model)).map (fun i => i + 1)

/-- `DB.get_camera_from_id`: `SELECT ... FROM camera WHERE rowid = ?`,
returning `None` when absent. -/
def DB.get_camera_from_id (db : DB) (camera_id : Nat) : Option Camera :=
  if camera_id = 0 then none else db.cameras.get? (camera_id - 1)

/-- `DB.get_files`: `SELECT filename_new FROM media`, in row order. -/
def DB.get_files (db : DB) : List String :=
  db.media.map (fun r => r.filename_new)

/-! ### Media: the per-file descriptor

A scanned file is embedded as the facts the program can observe about it:
its path, the SHA-256 of its bytes (the `Fingerprinter` output, deterministic
in the content), its byte size, and the raw metadata key/value pairs that
`ExifToolHelper.get_metadata` yields for it, in iteration order. -/

structure SrcFile where
  filename : String
  sha256sum : String
  size : Nat
  exif_raw : List (String × String)
deriving DecidableEq, Repr

/-- The extension list literals of `Media.__init__` (`self.exts`). -/
def image_exts : List String := ["jpg", "jpeg", "tif", "tiff", "raw", "png", "bmp"]

/-- `self.exts["video"]`. -/
def video_exts : List String := ["mp4"]

/-- `self.exts["future"]` (declared but never consulted). -/
def future_exts : List String := ["mp3", "wav", "flac", "mkv", "avi"]

namespace Media

/-- `Media.ext`: `os.path.splitext(self.filename)[1][1:].lower()`. -/
def ext (filename : String) : String :=
  ⟨((splitext_ext filename).data.drop 1).map Char.toLower⟩

/-- `Media.is_image`. -/
def is_image (m : SrcFile) : Bool := image_exts.contains (ext m.filename)

/-- `Media.is_video`. -/
def is_video (m : SrcFile) : Bool := video_exts.contains (ext m.filename)

/-- `Media.recognized`. -/
def recognized (m : SrcFile) : Bool := is_image m || is_video m

/-- Assignment `self.__exif[key] = value` on the list-as-dict: replace an
existing binding in place, otherwise append. -/
def dict_set (d : List (String × String)) (k v : String) :
    List (String × String) :=
  match d.find? (fun kv => kv.1 = k) with
  | some _ => d.map (fun kv => if kv.1 = k then (k, v) else kv)
  | none => d ++ [(k, v)]

/-- The loop body of `Media.exif`: `if self.__exif.get(key): raise ...`
(a truthy existing value is a duplicate-tag error; `.get` of an absent key
is `None`, falsy, as is an empty value), then assignment. -/
def exif_build (d : List (String × String)) :
    List (String × String) → Except PyErr (List (String × String))
  | [] => Except.ok d
  | (k, v) :: rest =>
    match d.find? (fun kv => kv.1 = k) with
    | some kv =>
      if kv.2 ≠ "" then Except.error PyErr.duplicateTag
      else exif_build (dict_set d k v) rest
    | none => exif_build (dict_set d k v) rest

/-- `Media.exif`: the normalized tag mapping, built from the raw pairs. -/
def exif (m : SrcFile) : Except PyErr (List (String × String)) :=
  exif_build [] m.exif_raw

/-- `Media._get_exif_value`: `self.exif[key]`, `KeyError` when absent. -/
def get_exif_value (d : List (String × String)) (key : String) :
    Except PyErr String :=
  match d.find? (fun kv => kv.1 = key) with
  | some kv => Except.ok kv.2
  | none => Except.error PyErr.keyError

/-- `Media.make`: the `EXIF:Make` tag. -/
def make (m : SrcFile) : Except PyErr String :=
  match exif m with
  | Except.error e => Except.error e
  | Except.ok d => get_exif_value d "EXIF:Make"

/-- `Media.model`: the `EXIF:Model` tag. -/
def model (m : SrcFile) : Except PyErr String :=
  match exif m with
  | Except.error e => Except.error e
  | Except.ok d => get_exif_value d "EXIF:Model"

/-- `self.dateformat`. -/
def dateformat : String := "%Y:%m:%d %H:%M:%S"

/-- `Media.date`: `datetime.strptime(self._get_exif_value("EXIF:CreateDate"),
self.dateformat)`. -/
def date (m : SrcFile) : Except PyErr DateTime :=
  match exif m with
  | Except.error e => Except.error e
  | Except.ok d =>
    match get_exif_value d "EXIF:CreateDate" with
    | Except.error e => Except.error e
    | Except.ok s => strptime s dateformat

/-- `Media.newname`: look up the camera's familiar name for the model, then
`os.path.join(_name, _date.strftime("%Y-%m"),
_date.strftime("%Y-%m-%d %H.%M.%S") + "." + _name + "." + self.ext)`.
Property accesses fail in source order: `self.model`, the name lookup
(`TypeError` on an unregistered model), `self.date`. -/
def newname (db : DB) (m : SrcFile) : Except PyErr String :=
  match model m with
  | Except.error e => Except.error e
  | Except.ok mdl =>
    match db.get_camera_name_from_model mdl with
    | none => Except.error PyErr.typeError
    | some nm =>
      match date m with
      | Except.error e => Except.error e
      | Except.ok dt =>
        let datedir := strftime dt "%Y-%m"
        let newfile := strftime dt "%Y-%m-%d %H.%M.%S" ++ "." ++ nm ++ "." ++
          ext m.filename
        Except.ok (path_join (path_join nm datedir) newfile)

end Media

/-- The field state `Media.__init__` leaves behind on success: the filename
plus every lazily derived field still unset (`None`). -/
structure MediaState where
  filename : String
  size_cache : Option Nat
  date_cache : Option DateTime
  exif_cache : Option (List (String × String))
  make_cache : Option String
  model_cache : Option String
  sha256sum_cache : Option String
  md5sum_cache : Option String
  newname_cache : Option String
deriving DecidableEq, Repr

/-- `Media.__init__`: `kwargs.get("filename")` is `None` when absent and a
falsy empty string is treated the same by `if not self.filename`; then
`os.path.exists` is consulted (`existing` lists the paths present on disk);
on success every derived field is initialized to `None` and no metadata
extraction or hashing happens. -/
def Media.init (filename : Option String) (existing : List String) :
    Except PyErr MediaState :=
  match filename with
  | none => Except.error PyErr.noFilename
  | some f =>
    if f = "" then Except.error PyErr.noFilename
    else if existing.contains f then
      Except.ok ⟨f, none, none, none, none, none, none, none, none⟩
    else Except.error PyErr.fileNotFound

/-! ### DB operations over a media descriptor -/

/-- `DB.file_exists_in_db`: `SELECT count(*) FROM media WHERE sha256sum = ?`
compared against zero. -/
def DB.file_exists_in_db (db : DB) (m : SrcFile) : Bool :=
  db.media.any (fun r => r.sha256sum = m.sha256sum)

/-- `DB.insert_image_into_db`: gather the row values in source order
(`media.newname` resolves the camera's name and `camera_id_from_model`
resolves its rowid, both before the duplicate check), return `False` when the
fingerprint is already present, otherwise execute the INSERT — whose UNIQUE
constraints on `filename_new` and `sha256sum` raise `IntegrityError` on a
clash — and return `True`.  No commit is performed here. -/
def DB.insert_image_into_db (db : DB) (m : SrcFile) :
    Except PyErr (DB × Bool) :=
  match Media.newname db m with
  | Except.error e => Except.error e
  | Except.ok newn =>
    match Media.date m with
    | Except.error e => Except.error e
    | Except.ok create_date =>
      match Media.model m with
      | Except.error e => Except.error e
      | Except.ok mdl =>
        match db.camera_id_from_model mdl with
        | none => Except.error PyErr.typeError
        | some camera_id =>
          if db.file_exists_in_db m then
            Except.ok (db, false)
          else if db.media.any
              (fun r => r.filename_new = newn ∨ r.sha256sum = m.sha256sum) then
            Except.error PyErr.integrityError
          else
            Except.ok
              ({ db with media := db.media ++
                  [⟨basename m.filename, newn, m.sha256sum, m.size,
                    create_date, camera_id⟩] },
               true)

/-- The camera-joined row view built by `DB.get_file_details`. -/
structure FileDetails where
  filename_original : String
  filename_new : String
  sha256sum : String
  size : Nat
  create_date : DateTime
  camera_id : Nat
  camera_make : String
  camera_model : String
  camera_short : String
  camera_description : String
deriving DecidableEq, Repr

/-- `DB.get_file_details`: fetch the media row by `filename_new`
(`row[5]` on a `None` row raises `TypeError`), then join its camera
(`camera['make']` on `None` raises `TypeError`). -/
def DB.get_file_details (db : DB) (filename : String) :
    Except PyErr FileDetails :=
  match db.media.find? (fun r => r.filename_new = filename) with
  | none => Except.error PyErr.typeError
  | some row =>
    match db.get_camera_from_id row.camera_id with
    | none => Except.error PyErr.typeError
    | some cam =>
      Except.ok ⟨row.filename_original, row.filename_new, row.sha256sum,
        row.size, row.create_date, row.camera_id,
        cam.make, cam.model, cam.name, cam.description⟩

/-! ### The ingestion orchestrator (`ImageSort`)

The destination tree is embedded as the list of destination file paths that
exist, each paired with the SHA-256 of its content.  Observable actions are
recorded as events so that ordering and flush-cadence claims can be stated. -/

/-- Observable actions during a scan. -/
inductive Ev where
  /-- The `media` INSERT of `insert_image_into_db` executed. -/
  | inserted
  /-- `shutil.copy2` executed in `ImageSort._copy`. -/
  | copied
  /-- `DB.add_camera` executed its INSERT for a newly seen model. -/
  | cameraAdded
  /-- `self.db.db.commit()` made the buffered writes durable. -/
  | flush
deriving DecidableEq, Repr

/-- `self.update_threshold`. -/
def update_threshold : Nat := 25

/-- The mutable state an `ImageSort` run threads: the database connection,
the destination tree (path, content hash), and the `count` of successful
updates accumulated by `ImageSort.sort`. -/
structure SysState where
  db : DB
  destFiles : List (String × String)
  count : Nat
deriving DecidableEq, Repr

/-- `ImageSort._copy`: build the destination path, return `False` when it
already exists on disk, otherwise create directories and `shutil.copy2`
(which leaves the destination with the source's bytes, hence its hash).
Falls off the end after a copy, returning Python `None` — embedded as
`none`, versus `some false` for the early return.  Reading `image.newname`
re-runs the lazy property. -/
def ImageSort.copy (s : SysState) (m : SrcFile) :
    Except PyErr (SysState × Option Bool × List Ev) :=
  match Media.newname s.db m with
  | Except.error e => Except.error e
  | Except.ok rel =>
    if s.destFiles.any (fun pv => pv.1 = path_join s.db.destination rel) then
      Except.ok (s, some false, [])
    else
      Except.ok ({ s with destFiles :=
        s.destFiles ++ [(path_join s.db.destination rel, m.sha256sum)] },
        none, [Ev.copied])

/-- `ImageSort._handle_file`: insert into the catalog first, then copy;
return `copied or inserted` (Python truthiness: `_copy` only ever yields
`None` or `False`). -/
def ImageSort.handle_file (s : SysState) (m : SrcFile) :
    Except PyErr (SysState × Bool × List Ev) :=
  match s.db.insert_image_into_db m with
  | Except.error e => Except.error e
  | Except.ok (db', inserted) =>
    match ImageSort.copy { s with db := db' } m with
    | Except.error e => Except.error e
    | Except.ok (s2, copied, ev2) =>
      Except.ok (s2,
        (match copied with
         | some b => b || inserted
         | none => inserted),
        (if inserted then [Ev.inserted] else []) ++ ev2)

/-- The tail of the `ImageSort.sort` loop body once the camera is known to
be registered: `_handle_file`, then — when the result is truthy — the
`count` increment and the every-`update_threshold` commit.  `ev1` carries
the events the camera-registration step already emitted.  An exception
leaves the state as it was when `_handle_file` raised. -/
def ImageSort.after_camera (s : SysState) (m : SrcFile) (ev1 : List Ev) :
    SysState × List Ev × Option PyErr :=
  match ImageSort.handle_file s m with
  | Except.error e => (s, ev1, some e)
  | Except.ok (s2, updated, ev2) =>
    if updated then
      if (s2.count + 1) % update_threshold = 0 then
        ({ s2 with count := s2.count + 1, db := s2.db.commit },
         ev1 ++ ev2 ++ [Ev.flush], none)
      else ({ s2 with count := s2.count + 1 }, ev1 ++ ev2, none)
    else (s2, ev1 ++ ev2, none)

/-- The body of `ImageSort.sort` for one discovered file, with the
interactive `_new_camera` prompt abstracted as `resolver : model ↦ (name,
description)`.  An exception leaves behind whatever state mutations already
happened (notably `add_camera`'s commit) and is reported in the third
component. -/
def ImageSort.process_one (resolver : String → String × String)
    (s : SysState) (m : SrcFile) : SysState × List Ev × Option PyErr :=
  if Media.recognized m = false then (s, [], none)
  else
    match Media.model m with
    | Except.error e => (s, [], some e)
    | Except.ok mdl =>
      if s.db.camera_model_exists mdl = false then
        match Media.make m with
        | Except.error e => (s, [], some e)
        | Except.ok mk =>
          match s.db.add_camera mk mdl (resolver mdl).1 (resolver mdl).2 with
          | Except.error e => (s, [], some e)
          | Except.ok db' =>
            ImageSort.after_camera { s with db := db' } m
              [Ev.cameraAdded, Ev.flush]
      else ImageSort.after_camera s m []

/-- The walk loop of `ImageSort.sort` over the discovered files: sequential,
stopping at the first unhandled per-file exception. -/
def ImageSort.sort_files (resolver : String → String × String)
    (s : SysState) : List SrcFile → SysState × List Ev × Option PyErr
  | [] => (s, [], none)
  | m :: rest =>
    match ImageSort.process_one resolver s m with
    | (s', ev, some e) => (s', ev, some e)
    | (s', ev, none) =>
      let r := ImageSort.sort_files resolver s' rest
      (r.1, ev ++ r.2.1, r.2.2)

/-- `ImageSort.sort`: walk every file, then one unconditional final
`self.db.db.commit()` — which an aborting exception skips. -/
def ImageSort.sort (resolver : String → String × String)
    (s : SysState) (files : List SrcFile) : SysState × List Ev × Option PyErr :=
  match ImageSort.sort_files resolver s files with
  | (s', tr, none) => ({ s' with db := s'.db.commit }, tr ++ [Ev.flush], none)
  | (s', tr, some e) => (s', tr, some e)

/-! ### The verifier (`ImageSort.verify`) -/

/-- One iteration of the `ImageSort.verify` loop: fetch the joined details,
build the destination path, and then — when the destination file is missing —
call `self.db.delete_file(...)`, a method the `DB` class does not define, so
the call raises `AttributeError`; when checksums are requested and the
recomputed hash differs from the stored one, call
`self.checksum_dont_match(...)`, a method the `ImageSort` class does not
define, so that call also raises `AttributeError`. -/
def ImageSort.verify_one (db : DB) (fsys : List (String × String))
    (checks : Bool) (f : String) : Except PyErr Unit :=
  match db.get_file_details f with
  | Except.error e => Except.error e
  | Except.ok details =>
    let filename := path_join db.destination details.filename_new
    match fsys.find? (fun pv => pv.1 = filename) with
    | none => Except.error PyErr.attributeErrorDeleteFile
    | some pv =>
      if checks then
        if details.sha256sum ≠ pv.2 then
          Except.error PyErr.attributeErrorChecksumDontMatch
        else Except.ok ()
      else Except.ok ()

/-- The loop of `ImageSort.verify` over `db.get_files()`. -/
def ImageSort.verify_files (db : DB) (fsys : List (String × String))
    (checks : Bool) : List String → Except PyErr Unit
  | [] => Except.ok ()
  | f :: rest =>
    match ImageSort.verify_one db fsys checks f with
    | Except.error e => Except.error e
    | Except.ok _ => ImageSort.verify_files db fsys checks rest

/-- `ImageSort.verify`: iterate over every cataloged `filename_new`.  The
run never mutates the database: the only branch that was meant to delete a
row dies on the missing `delete_file` method first. -/
def ImageSort.verify (db : DB) (fsys : List (String × String))
    (checks : Bool) : Except PyErr Unit :=
  ImageSort.verify_files db fsys checks db.get_files

/-! ### Spec-side definitions

These definitions follow the specification's words, to be compared against
the embedded source functions. -/

/-- A number zero-padded to four digits, the spec's `YYYY` field. -/
def pad4 (n : Nat) : String :=
  if n < 10 then "000" ++ nat_decimal n
  else if n < 100 then "00" ++ nat_decimal n
  else if n < 1000 then "0" ++ nat_decimal n
  else nat_decimal n

/-- Modelled from the spec: the canonical relative path
`"{short_name}/{YYYY-MM}/{YYYY-MM-DD HH.MM.SS}.{short_name}.{ext}"`. -/
def canonical_path_spec (short_name : String) (t : DateTime) (e : String) :
    String :=
  short_name ++ "/" ++ pad4 t.year ++ "-" ++ pad2 t.month ++ "/" ++
  pad4 t.year ++ "-" ++ pad2 t.month ++ "-" ++ pad2 t.day ++ " " ++
  pad2 t.hour ++ "." ++ pad2 t.minute ++ "." ++ pad2 t.second ++ "." ++
  short_name ++ "." ++ e

/-- The catalog-relevant events of a scan trace: everything except file
copies (insertions, camera additions, durability flushes). -/
def cam_ins_flush_evts (tr : List Ev) : List Ev :=
  tr.filter (fun e => ¬ e = Ev.copied)

/-- Only the insertion and flush events of a scan trace — the events the
spec's batch-commit discipline speaks about. -/
def ins_flush_evts (tr : List Ev) : List Ev :=
  tr.filter (fun e => e = Ev.inserted || e = Ev.flush)

/-- Modelled from the spec: the claimed batch-commit discipline over the
insertion/flush events of a scan, starting from insertion count `c` — a
flush occurs exactly immediately after an insertion that brings the running
count of successful insertions to a multiple of `update_threshold`, and
nowhere else. -/
def flush_only_at_threshold : Nat → List Ev → Bool
  | _, [] => true
  | c, Ev.inserted :: Ev.flush :: rest =>
    decide ((c + 1) % update_threshold = 0) &&
      flush_only_at_threshold (c + 1) rest
  | c, Ev.inserted :: rest =>
    decide (¬ (c + 1) % update_threshold = 0) &&
      flush_only_at_threshold (c + 1) rest
  | _, _ => false

/-- The amended batch-commit discipline, additionally allowing the flush
that `add_camera`'s `db.commit()` performs right after registering a newly
seen camera. -/
def flush_discipline : Nat → List Ev → Bool
  | _, [] => true
  | c, Ev.cameraAdded :: Ev.flush :: rest => flush_discipline c rest
  | c, Ev.inserted :: Ev.flush :: rest =>
    decide ((c + 1) % update_threshold = 0) && flush_discipline (c + 1) rest
  | c, Ev.inserted :: rest =>
    decide (¬ (c + 1) % update_threshold = 0) && flush_discipline (c + 1) rest
  | _, _ => false

/-- A filtered trace that is empty or opens with an insertion or a camera
registration — the shape every per-file event block has, needed because a
flush can never stand at the head of a block. -/
def block_headed : List Ev → Bool
  | [] => true
  | Ev.cameraAdded :: _ => true
  | Ev.inserted :: _ => true
  | _ => false

/-! ### Character-level facts about decimal output -/

/-- A string none of whose characters is the path separator. -/
def no_slash (s : String) : Prop := ∀ c ∈ s.data, c ≠ '/'

instance no_slash_decidable (s : String) : Decidable (no_slash s) :=
  List.decidableBAll _ s.data

/-! ### Shared concrete inputs for witnesses and counterexamples -/

/-- A database holding one registered camera, model `ABC123` with familiar
name `abc`, and an empty catalog. -/
def exDb : DB := ⟨[⟨"abc", "ABC123", "An ABC camera", "Canon"⟩], [], [], "/dest"⟩

/-- A recognized photo taken by `ABC123` at `2023:05:01 10:00:00`. -/
def exPhoto : SrcFile := ⟨"/src/photo.jpg", "f1a2", 2048,
  [("EXIF:Make", "Canon"), ("EXIF:Model", "ABC123"),
   ("EXIF:CreateDate", "2023:05:01 10:00:00")]⟩

/-- A recognized photo from a camera model `XYZ9` the registry has never
seen. -/
def newCamFile : SrcFile := ⟨"/src/trip.jpg", "cccc", 10,
  [("EXIF:Make", "Nikon"), ("EXIF:Model", "XYZ9"),
   ("EXIF:CreateDate", "2023:06:02 11:22:33")]⟩

/-- A recognized photo whose capture year is 999 — reachable, since the
four-digit `%Y` parse accepts `"0999"`. -/
def oldYearPhoto : SrcFile := ⟨"/src/old.jpg", "dddd", 11,
  [("EXIF:Make", "Canon"), ("EXIF:Model", "ABC123"),
   ("EXIF:CreateDate", "0999:05:01 10:00:00")]⟩

/-- A database whose camera was registered under the slash-terminated short
name `abc/` — the interactive prompt accepts any string. -/
def slashNameDb : DB := ⟨[⟨"abc/", "ABC123", "x", "Canon"⟩], [], [], "/dest"⟩

/-- A database whose camera was registered under the empty short name. -/
def emptyNameDb : DB := ⟨[⟨"", "ABC123", "x", "Canon"⟩], [], [], "/dest"⟩

/-- A database with no registered camera whose catalog already holds a row
with `exPhoto`'s fingerprint. -/
def dupNoCameraDb : DB :=
  ⟨[], [⟨"old.jpg", "x/y.jpg", "f1a2", 2048, ⟨2023, 5, 1, 10, 0, 0⟩, 3⟩],
   [⟨"old.jpg", "x/y.jpg", "f1a2", 2048, ⟨2023, 5, 1, 10, 0, 0⟩, 3⟩], "/dest"⟩

/-- A database whose catalog already holds `exPhoto`'s fingerprint `f1a2`
under the registered camera `abc`. -/
def dupDb : DB :=
  ⟨[⟨"abc", "ABC123", "An ABC camera", "Canon"⟩],
   [⟨"old.jpg", "abc/2023-01/2023-01-01 00.00.00.abc.jpg", "f1a2", 999,
     ⟨2023, 1, 1, 0, 0, 0⟩, 1⟩],
   [⟨"old.jpg", "abc/2023-01/2023-01-01 00.00.00.abc.jpg", "f1a2", 999,
     ⟨2023, 1, 1, 0, 0, 0⟩, 1⟩],
   "/dest"⟩

/-- A database with camera `abc` registered and a catalog row that occupies
`exPhoto`'s canonical path with a different fingerprint `zzzz`. -/
def nameClashDb : DB :=
  ⟨[⟨"abc", "ABC123", "An ABC camera", "Canon"⟩],
   [⟨"other.jpg", "abc/2023-05/2023-05-01 10.00.00.abc.jpg", "zzzz", 1,
     ⟨2023, 5, 1, 10, 0, 0⟩, 1⟩],
   [⟨"other.jpg", "abc/2023-05/2023-05-01 10.00.00.abc.jpg", "zzzz", 1,
     ⟨2023, 5, 1, 10, 0, 0⟩, 1⟩],
   "/dest"⟩

/-- A scan state over `dupDb` whose destination tree is empty: the
fingerprint is cataloged but its destination file is missing. -/
def dupState : SysState := ⟨dupDb, [], 0⟩

/-- A scan state over `dupDb` in which `exPhoto`'s destination file already
exists on disk. -/
def dupStatePresent : SysState :=
  ⟨dupDb, [("/dest/abc/2023-05/2023-05-01 10.00.00.abc.jpg", "f1a2")], 0⟩

/-- A scan state over `exDb` (camera registered, catalog empty, destination
tree empty). -/
def freshState : SysState := ⟨exDb, [], 0⟩

/-- A row committed before the aborting scan starts. -/
def preRow : MediaRow :=
  ⟨"p.jpg", "abc/2020-01/2020-01-01 00.00.00.abc.jpg", "aaaa", 1,
   ⟨2020, 1, 1, 0, 0, 0⟩, 1⟩

/-- A start state whose catalog already durably holds `preRow`. -/
def c7Start : SysState :=
  ⟨⟨[⟨"abc", "ABC123", "d", "Canon"⟩], [preRow], [preRow], "/dest"⟩, [], 0⟩

/-- A `.jpg` file whose metadata lacks the `EXIF:CreateDate` tag: reading
`Media.date` raises `KeyError`. -/
def badFile : SrcFile :=
  ⟨"/src/bad.jpg", "bbbb", 7, [("EXIF:Make", "Canon"), ("EXIF:Model", "ABC123")]⟩

/-- The state at which the scan of `[exPhoto, badFile]` aborts: `exPhoto`
was ingested (uncommitted), `preRow` is still the durable content. -/
def c7Abort : SysState :=
  ⟨⟨[⟨"abc", "ABC123", "d", "Canon"⟩],
    [preRow, ⟨"photo.jpg", "abc/2023-05/2023-05-01 10.00.00.abc.jpg", "f1a2",
      2048, ⟨2023, 5, 1, 10, 0, 0⟩, 1⟩],
    [preRow], "/dest"⟩,
   [("/dest/abc/2023-05/2023-05-01 10.00.00.abc.jpg", "f1a2")], 1⟩

/-- A resolver standing in for the interactive prompt (never consulted in
the witness scan, whose camera is already registered). -/
def idResolver : String → String × String := fun mdl => (mdl, mdl)

/-- A destination tree in which `dupDb`'s cataloged file exists but its
content hash differs from the stored fingerprint `f1a2`. -/
def alteredFs : List (String × String) :=
  [("/dest/abc/2023-01/2023-01-01 00.00.00.abc.jpg", "tampered")]

theorem digit_char_ne_slash (n : Nat) : digit_char n ≠ '/' := by
  unfold digit_char
  split <;> decide

theorem nat_decimal_core_no_slash (fuel : Nat) :
    ∀ (n : Nat) (ds : List Char), (∀ c ∈ ds, c ≠ '/') →
      ∀ c ∈ nat_decimal_core fuel n ds, c ≠ '/' := by
  induction fuel with
  | zero => intro n ds hds; simpa [nat_decimal_core] using hds
  | succ f ih =>
    intro n ds hds c hc
    rw [nat_decimal_core] at hc
    split at hc
    · rcases List.mem_cons.mp hc with h | h
      · exact h ▸ digit_char_ne_slash n
      · exact hds c h
    · refine ih (n / 10) (digit_char (n % 10) :: ds) ?_ c hc
      intro c' hc'
      rcases List.mem_cons.mp hc' with h | h
      · exact h ▸ digit_char_ne_slash (n % 10)
      · exact hds c' h

theorem nat_decimal_no_slash (n : Nat) : no_slash (nat_decimal n) :=
  nat_decimal_core_no_slash (n + 1) n [] (by simp)

theorem nat_decimal_core_ne_nil (fuel : Nat) :
    ∀ (n : Nat) (ds : List Char), ds ≠ [] → nat_decimal_core fuel n ds ≠ [] := by
  induction fuel with
  | zero => intro n ds h; simpa [nat_decimal_core] using h
  | succ f ih =>
    intro n ds h
    rw [nat_decimal_core]
    split
    · simp
    · exact ih (n / 10) _ (by simp)

theorem nat_decimal_ne_nil (n : Nat) : (nat_decimal n).data ≠ [] := by
  show nat_decimal_core (n + 1) n [] ≠ []
  rw [nat_decimal_core]
  split
  · simp
  · exact nat_decimal_core_ne_nil n (n / 10) _ (by simp)

theorem pad2_no_slash (n : Nat) : no_slash (pad2 n) := by
  unfold pad2
  split
  · intro c hc
    rw [String.data_append] at hc
    rcases List.mem_append.mp hc with h | h
    · have h0 : ("0" : String).data = ['0'] := rfl
      rw [h0] at h
      simp only [List.mem_singleton] at h
      subst h
      decide
    · exact nat_decimal_no_slash n c h
  · exact nat_decimal_no_slash n

theorem pad2_ne_nil (n : Nat) : (pad2 n).data ≠ [] := by
  unfold pad2
  split
  · rw [String.data_append]; simp
  · exact nat_decimal_ne_nil n

/-! ### Facts about the slash tests and `path_join` -/

theorem no_slash_append {s t : String} (hs : no_slash s) (ht : no_slash t) :
    no_slash (s ++ t) := by
  intro c hc
  rw [String.data_append] at hc
  rcases List.mem_append.mp hc with h | h
  · exact hs c h
  · exact ht c h

theorem data_append_ne_nil_left {s : String} (t : String)
    (h : s.data ≠ []) : (s ++ t).data ≠ [] := by
  rw [String.data_append]
  simp [h]

theorem data_append_ne_nil_right (s : String) {t : String}
    (h : t.data ≠ []) : (s ++ t).data ≠ [] := by
  rw [String.data_append]
  simp [h]

theorem str_ne_empty_of_data {s : String} (h : s.data ≠ []) : s ≠ "" := by
  intro he
  subst he
  exact h rfl

theorem str_starts_with_slash_eq_false {s : String} (h : no_slash s) :
    str_starts_with_slash s = false := by
  unfold str_starts_with_slash
  cases hs : s.data with
  | nil => rfl
  | cons c cs =>
    have : c ≠ '/' := h c (hs ▸ List.mem_cons_self c cs)
    simp [this]

theorem str_starts_with_slash_append {s : String} (t : String)
    (h : s.data ≠ []) :
    str_starts_with_slash (s ++ t) = str_starts_with_slash s := by
  unfold str_starts_with_slash
  rw [String.data_append]
  cases hs : s.data with
  | nil => exact absurd hs h
  | cons c cs => simp

theorem str_ends_with_slash_eq_false {s : String} (h : no_slash s) :
    str_ends_with_slash s = false := by
  unfold str_ends_with_slash
  cases hl : s.data.getLast? with
  | none => rfl
  | some c =>
    have hmem : c ∈ s.data := by
      cases hd : s.data with
      | nil => rw [hd] at hl; simp at hl
      | cons x xs =>
        rw [hd] at hl
        have h2 : (x :: xs).getLast (by simp) = c := by
          rw [List.getLast?_eq_getLast _ (by simp)] at hl
          exact Option.some_injective _ hl
        rw [← h2]
        exact List.getLast_mem _
    simp [h c hmem]

theorem str_ends_with_slash_append (s : String) {t : String}
    (h : t.data ≠ []) :
    str_ends_with_slash (s ++ t) = str_ends_with_slash t := by
  unfold str_ends_with_slash
  rw [String.data_append, List.getLast?_append]
  have : t.data.getLast?.isSome := List.getLast?_isSome.mpr h
  cases hl : t.data.getLast? with
  | none => rw [hl] at this; simp at this
  | some c => simp [Option.or]

/-- `path_join` reduces to separator-gluing when the left part is a
nonempty string not ending in a slash and the right part does not start
with one. -/
theorem path_join_eq {a b : String} (ha1 : a ≠ "")
    (ha2 : str_ends_with_slash a = false)
    (hb : str_starts_with_slash b = false) :
    path_join a b = a ++ "/" ++ b := by
  simp [path_join, hb, ha1, ha2]

theorem pad4_eq_nat_decimal {n : Nat} (h : 1000 ≤ n) : pad4 n = nat_decimal n := by
  unfold pad4
  rw [if_neg (by omega), if_neg (by omega), if_neg (by omega)]

theorem str_starts_append_false {s : String} (t : String) (h1 : s.data ≠ [])
    (h2 : str_starts_with_slash s = false) :
    str_starts_with_slash (s ++ t) = false := by
  rw [str_starts_with_slash_append t h1]
  exact h2

/-! ### Camera-lookup helper lemmas -/

theorem get_camera_name_of_not_exists {db : DB} {mdl : String}
    (h : db.camera_model_exists mdl = false) :
    db.get_camera_name_from_model mdl = none := by
  rw [DB.camera_model_exists, List.any_eq_false] at h
  rw [DB.get_camera_name_from_model, List.find?_eq_none.mpr h]
  rfl

theorem get_camera_name_of_exists {db : DB} {mdl : String}
    (h : db.camera_model_exists mdl = true) :
    ∃ nm, db.get_camera_name_from_model mdl = some nm := by
  rw [DB.camera_model_exists, List.any_eq_true] at h
  have hsome : (db.cameras.find? (fun c => c.model = mdl)).isSome :=
    List.find?_isSome.mpr h
  obtain ⟨c, hc⟩ := Option.isSome_iff_exists.mp hsome
  exact ⟨c.name, by rw [DB.get_camera_name_from_model, hc]; rfl⟩

theorem camera_id_of_exists {db : DB} {mdl : String}
    (h : db.camera_model_exists mdl = true) :
    ∃ i, db.camera_id_from_model mdl = some i := by
  rw [DB.camera_model_exists] at h
  have hsome : (db.cameras.findIdx? (fun c => c.model = mdl)).isSome := by
    rw [List.findIdx?_isSome]
    exact h
  obtain ⟨i, hi⟩ := Option.isSome_iff_exists.mp hsome
  exact ⟨i + 1, by rw [DB.camera_id_from_model, hi]; rfl⟩

/-! ### Insert and copy helper lemmas -/

theorem insert_dup_false (db : DB) (m : SrcFile) (mdl : String) (t : DateTime)
    (hm : Media.model m = Except.ok mdl)
    (ht : Media.date m = Except.ok t)
    (hreg : db.camera_model_exists mdl = true)
    (hdup : db.file_exists_in_db m = true) :
    db.insert_image_into_db m = Except.ok (db, false) := by
  obtain ⟨nm, hnm⟩ := get_camera_name_of_exists hreg
  obtain ⟨cid, hcid⟩ := camera_id_of_exists hreg
  simp only [DB.insert_image_into_db, Media.newname, hm, hnm, ht, hcid, hdup]
  rfl

theorem insert_fresh (db : DB) (m : SrcFile) (mdl : String) (t : DateTime)
    (hm : Media.model m = Except.ok mdl)
    (ht : Media.date m = Except.ok t)
    (hreg : db.camera_model_exists mdl = true)
    (nn : String) (hnn : Media.newname db m = Except.ok nn)
    (hfresh : db.file_exists_in_db m = false)
    (hnoclash : ∀ r ∈ db.media, r.filename_new ≠ nn) :
    ∃ cid, db.camera_id_from_model mdl = some cid ∧
      db.insert_image_into_db m =
        Except.ok ({ db with media := db.media ++
          [⟨basename m.filename, nn, m.sha256sum, m.size, t, cid⟩] }, true) := by
  obtain ⟨cid, hcid⟩ := camera_id_of_exists hreg
  refine ⟨cid, hcid, ?_⟩
  have hsha : ∀ r ∈ db.media, ¬ r.sha256sum = m.sha256sum := by
    rw [DB.file_exists_in_db, List.any_eq_false] at hfresh
    intro r hr
    simpa using hfresh r hr
  have hclash : (db.media.any
      (fun r => decide (r.filename_new = nn ∨ r.sha256sum = m.sha256sum))) = false := by
    rw [List.any_eq_false]
    intro r hr
    simp [hnoclash r hr, hsha r hr]
  simp only [DB.insert_image_into_db, hnn, ht, hm, hcid, hfresh, hclash]
  simp

theorem copy_exists_skip (s : SysState) (m : SrcFile) (nn : String)
    (hnn : Media.newname s.db m = Except.ok nn)
    (hex : s.destFiles.any (fun pv => pv.1 = path_join s.db.destination nn) = true) :
    ImageSort.copy s m = Except.ok (s, some false, []) := by
  simp only [ImageSort.copy, hnn, hex]
  rfl

theorem copy_absent (s : SysState) (m : SrcFile) (nn : String)
    (hnn : Media.newname s.db m = Except.ok nn)
    (habs : s.destFiles.any (fun pv => pv.1 = path_join s.db.destination nn) = false) :
    ImageSort.copy s m = Except.ok ({ s with destFiles :=
      s.destFiles ++ [(path_join s.db.destination nn, m.sha256sum)] },
      none, [Ev.copied]) := by
  simp only [ImageSort.copy, hnn, habs]
  rfl

/-! ## Claim theorems -/

/-- Counterexample for C1: the claim quantifies over every registered short
name and capture timestamp, but the code's path diverges from the claimed
`"{s}/{YYYY-MM}/…"` format outside the four-digit-year, well-formed-name
core: (a) a capture year of 999 — reachable, since the four-digit `%Y`
parse accepts `"0999"` — is printed unpadded by `strftime`, giving
`abc/999-05/…` where the format says `abc/0999-05/…`; (b) a short name
ending in `/` makes `os.path.join` glue without a separator, giving
`abc/2023-05/…` where the format says `abc//2023-05/…`; (c) the empty short
name likewise drops the format's leading `/` component. -/
theorem newname_format_cex :
    (Media.date oldYearPhoto = Except.ok ⟨999, 5, 1, 10, 0, 0⟩ ∧
     Media.newname exDb oldYearPhoto =
       Except.ok "abc/999-05/999-05-01 10.00.00.abc.jpg" ∧
     Media.newname exDb oldYearPhoto ≠
       Except.ok (canonical_path_spec "abc" ⟨999, 5, 1, 10, 0, 0⟩
         (Media.ext oldYearPhoto.filename)))
    ∧ (slashNameDb.get_camera_name_from_model "ABC123" = some "abc/" ∧
       Media.newname slashNameDb exPhoto =
         Except.ok "abc/2023-05/2023-05-01 10.00.00.abc/.jpg" ∧
       Media.newname slashNameDb exPhoto ≠
         Except.ok (canonical_path_spec "abc/" ⟨2023, 5, 1, 10, 0, 0⟩
           (Media.ext exPhoto.filename)))
    ∧ (emptyNameDb.get_camera_name_from_model "ABC123" = some "" ∧
       Media.newname emptyNameDb exPhoto =
         Except.ok "2023-05/2023-05-01 10.00.00..jpg" ∧
       Media.newname emptyNameDb exPhoto ≠
         Except.ok (canonical_path_spec "" ⟨2023, 5, 1, 10, 0, 0⟩
           (Media.ext exPhoto.filename))) := by
  decide

/-- Claim C1 (amended): for every recognized media file whose device model
resolves to a registered short name `nm` that is nonempty and not
slash-terminated, whose capture timestamp parses to `t` with a four-digit
year, and whose extension is `e = Media.ext`, the canonical relative path
computed by `Media.newname` equals
`"{nm}/{YYYY-MM}/{YYYY-MM-DD HH.MM.SS}.{nm}.{e}"` formatted from `t`
(the spec-side formatter `canonical_path_spec`).  The three hypotheses are
exactly the ones `newname_format_cex` shows are needed. -/
theorem newname_canonical (db : DB) (m : SrcFile) (mdl nm : String) (t : DateTime)
    (hm : Media.model m = Except.ok mdl)
    (hs : db.get_camera_name_from_model mdl = some nm)
    (ht : Media.date m = Except.ok t)
    (hy : 1000 ≤ t.year)
    (hnm1 : nm ≠ "")
    (hnm2 : str_ends_with_slash nm = false) :
    Media.newname db m =
      Except.ok (canonical_path_spec nm t (Media.ext m.filename)) := by
  have hD : strftime t "%Y-%m" =
      nat_decimal t.year ++ ("-" ++ (pad2 t.month ++ "")) := rfl
  have hL : strftime t "%Y-%m-%d %H.%M.%S" =
      nat_decimal t.year ++ ("-" ++ (pad2 t.month ++ ("-" ++ (pad2 t.day ++
      (" " ++ (pad2 t.hour ++ ("." ++ (pad2 t.minute ++
      ("." ++ (pad2 t.second ++ "")))))))))) := rfl
  have hDnos : no_slash (strftime t "%Y-%m") := by
    rw [hD]
    exact no_slash_append (nat_decimal_no_slash _)
      (no_slash_append (by decide) (no_slash_append (pad2_no_slash _) (by decide)))
  have hDne : (strftime t "%Y-%m").data ≠ [] := by
    rw [hD]; exact data_append_ne_nil_left _ (nat_decimal_ne_nil _)
  have hLne : (strftime t "%Y-%m-%d %H.%M.%S").data ≠ [] := by
    rw [hL]; exact data_append_ne_nil_left _ (nat_decimal_ne_nil _)
  have hLstart : str_starts_with_slash (strftime t "%Y-%m-%d %H.%M.%S") = false := by
    rw [hL]
    exact str_starts_append_false _ (nat_decimal_ne_nil _)
      (str_starts_with_slash_eq_false (nat_decimal_no_slash _))
  have hFstart : str_starts_with_slash
      (strftime t "%Y-%m-%d %H.%M.%S" ++ "." ++ nm ++ "." ++ Media.ext m.filename)
        = false := by
    refine str_starts_append_false _ ?_ ?_
    · exact data_append_ne_nil_left _ (data_append_ne_nil_left _
        (data_append_ne_nil_left _ hLne))
    · refine str_starts_append_false _ ?_ ?_
      · exact data_append_ne_nil_left _ (data_append_ne_nil_left _ hLne)
      · refine str_starts_append_false _ ?_ ?_
        · exact data_append_ne_nil_left _ hLne
        · exact str_starts_append_false _ hLne hLstart
  have hj1 : path_join nm (strftime t "%Y-%m") =
      nm ++ "/" ++ strftime t "%Y-%m" :=
    path_join_eq hnm1 hnm2 (str_starts_with_slash_eq_false hDnos)
  have hj2 : path_join (nm ++ "/" ++ strftime t "%Y-%m")
      (strftime t "%Y-%m-%d %H.%M.%S" ++ "." ++ nm ++ "." ++ Media.ext m.filename) =
      (nm ++ "/" ++ strftime t "%Y-%m") ++ "/" ++
      (strftime t "%Y-%m-%d %H.%M.%S" ++ "." ++ nm ++ "." ++ Media.ext m.filename) := by
    refine path_join_eq ?_ ?_ hFstart
    · exact str_ne_empty_of_data (data_append_ne_nil_right _ hDne)
    · rw [str_ends_with_slash_append _ hDne]
      exact str_ends_with_slash_eq_false hDnos
  simp only [Media.newname, hm, hs, ht]
  rw [hj1, hj2, hD, hL, canonical_path_spec, pad4_eq_nat_decimal hy]
  simp [String.append_assoc, String.append_empty]

/-- Witness for C1: ingesting `photo.jpg` with device model `ABC123`
registered as short name `abc` and capture time `2023:05:01 10:00:00` yields
canonical path `abc/2023-05/2023-05-01 10.00.00.abc.jpg`, exactly the spec's
scenario. -/
theorem newname_canonical_witness :
    Media.newname exDb exPhoto =
      Except.ok "abc/2023-05/2023-05-01 10.00.00.abc.jpg" := by
  have h := newname_canonical exDb exPhoto "ABC123" "abc" ⟨2023, 5, 1, 10, 0, 0⟩
    (by decide) (by decide) (by decide) (by decide) (by decide) (by decide)
  rw [h]
  decide

/-- Claim C9: `insert_image_into_db` resolves the camera for the media's
device model — `media.newname` looks up the familiar name and
`camera_id_from_model` looks up the rowid — before the duplicate-fingerprint
check runs, so an unregistered model makes the call raise (the `TypeError`
from subscripting the empty query result) for every media value, including
entries whose fingerprint is already cataloged. -/
theorem insert_unregistered_model_fails (db : DB) (m : SrcFile) (mdl : String)
    (hm : Media.model m = Except.ok mdl)
    (hc : db.camera_model_exists mdl = false) :
    db.insert_image_into_db m = Except.error PyErr.typeError := by
  have hn := get_camera_name_of_not_exists hc
  simp only [DB.insert_image_into_db, Media.newname, hm, hn]

/-- Witness for C9: `exPhoto`'s fingerprint is already in the catalog, yet
insertion raises `TypeError` because the model `ABC123` is unregistered —
it does not return `False`. -/
theorem insert_unregistered_model_fails_witness :
    dupNoCameraDb.file_exists_in_db exPhoto = true ∧
    dupNoCameraDb.insert_image_into_db exPhoto = Except.error PyErr.typeError :=
  ⟨by decide,
   insert_unregistered_model_fails dupNoCameraDb exPhoto "ABC123"
     (by decide) (by decide)⟩

/-- Counterexample for C2: the claim quantifies over every media entry, but
(a) with the fingerprint already cataloged and the device model unregistered,
`insert_image_into_db` raises `TypeError` instead of returning `False`, and
(b) with a fresh fingerprint whose canonical name collides with an existing
row, it raises `IntegrityError` instead of persisting the row and returning
`True`. -/
theorem insert_spec_cex :
    (dupNoCameraDb.file_exists_in_db exPhoto = true ∧
     dupNoCameraDb.insert_image_into_db exPhoto = Except.error PyErr.typeError) ∧
    (nameClashDb.file_exists_in_db exPhoto = false ∧
     nameClashDb.insert_image_into_db exPhoto =
       Except.error PyErr.integrityError) := by
  decide

/-- Claim C2 (amended): for a media entry whose metadata resolves and whose
device model is registered, `insert_image_into_db` returns `False` without
error when a row with the same fingerprint exists; when the fingerprint is
fresh and no existing row occupies the canonical name, it persists exactly
one new row and returns `True`; and after a successful insertion a second
entry with identical bytes is rejected with `False`, leaving exactly one
more row with that fingerprint than before — so two identical files yield
one catalog row. -/
theorem insert_image_spec (db : DB) (m : SrcFile) (mdl : String) (t : DateTime)
    (hm : Media.model m = Except.ok mdl)
    (ht : Media.date m = Except.ok t)
    (hreg : db.camera_model_exists mdl = true) :
    (db.file_exists_in_db m = true →
      db.insert_image_into_db m = Except.ok (db, false))
    ∧ (∀ nn, Media.newname db m = Except.ok nn →
        db.file_exists_in_db m = false →
        (∀ r ∈ db.media, r.filename_new ≠ nn) →
        ∃ cid, db.insert_image_into_db m =
          Except.ok ({ db with media := db.media ++
            [⟨basename m.filename, nn, m.sha256sum, m.size, t, cid⟩] }, true))
    ∧ (∀ db' m2, db.insert_image_into_db m = Except.ok (db', true) →
        m2.sha256sum = m.sha256sum →
        ((db'.media.filter (fun r => r.sha256sum = m.sha256sum)).length =
          (db.media.filter (fun r => r.sha256sum = m.sha256sum)).length + 1
        ∧ ∀ mdl2 t2, Media.model m2 = Except.ok mdl2 →
            Media.date m2 = Except.ok t2 →
            db'.camera_model_exists mdl2 = true →
            db'.insert_image_into_db m2 = Except.ok (db', false))) := by
  refine ⟨fun hdup => insert_dup_false db m mdl t hm ht hreg hdup, ?_, ?_⟩
  · intro nn hnn hfresh hnoclash
    obtain ⟨cid, -, hins⟩ := insert_fresh db m mdl t hm ht hreg nn hnn hfresh hnoclash
    exact ⟨cid, hins⟩
  · intro db' m2 hins h2
    obtain ⟨nm, hnm⟩ := get_camera_name_of_exists hreg
    obtain ⟨cid, hcid⟩ := camera_id_of_exists hreg
    have hnn : ∃ nn, Media.newname db m = Except.ok nn := by
      simp only [Media.newname, hm, hnm, ht]
      exact ⟨_, rfl⟩
    obtain ⟨nn, hnn⟩ := hnn
    simp only [DB.insert_image_into_db, hnn, ht, hm, hcid] at hins
    split at hins
    · simp at hins
    · split at hins
      · simp at hins
      · rw [Except.ok.injEq, Prod.mk.injEq] at hins
        obtain ⟨hdb, -⟩ := hins
        subst hdb
        constructor
        · simp [List.filter_append]
        · intro mdl2 t2 hm2 ht2 hreg2
          refine insert_dup_false _ m2 mdl2 t2 hm2 ht2 hreg2 ?_
          rw [DB.file_exists_in_db, List.any_eq_true]
          exact ⟨⟨basename m.filename, nn, m.sha256sum, m.size, t, cid⟩,
            by simp, by simp [h2]⟩

/-- Witness for C2 (amended): re-ingesting a file whose fingerprint `f1a2`
is already cataloged returns `False` and leaves the database untouched. -/
theorem insert_image_spec_witness :
    dupDb.insert_image_into_db exPhoto = Except.ok (dupDb, false) :=
  (insert_image_spec dupDb exPhoto "ABC123" ⟨2023, 5, 1, 10, 0, 0⟩
    (by decide) (by decide) (by decide)).1 (by decide)

/-- Counterexample for C3: the claim says a file whose fingerprint is already
cataloged is never copied, regardless of whether the destination file exists;
but with the destination file absent, `_handle_file` performs the copy
(the `Ev.copied` event fires and the destination gains the file) — only the
catalog insert is suppressed. -/
theorem handle_duplicate_cex :
    dupState.db.file_exists_in_db exPhoto = true ∧
    ImageSort.handle_file dupState exPhoto =
      Except.ok ({ dupState with destFiles :=
        [("/dest/abc/2023-05/2023-05-01 10.00.00.abc.jpg", "f1a2")] },
        false, [Ev.copied]) := by
  decide

/-- Claim C3 (amended): for a recognized file whose fingerprint is already
in the catalog (and whose model is registered and metadata resolves),
`_handle_file` performs no catalog insert — the database is unchanged and no
`Ev.inserted` fires — and the copy is skipped only when the destination file
already exists on disk; when the destination file is absent, the duplicate
is nevertheless copied. -/
theorem handle_duplicate_spec (s : SysState) (m : SrcFile) (mdl : String)
    (t : DateTime) (nn : String)
    (hm : Media.model m = Except.ok mdl)
    (ht : Media.date m = Except.ok t)
    (hreg : s.db.camera_model_exists mdl = true)
    (hnn : Media.newname s.db m = Except.ok nn)
    (hdup : s.db.file_exists_in_db m = true) :
    (s.destFiles.any (fun pv => pv.1 = path_join s.db.destination nn) = true →
      ImageSort.handle_file s m = Except.ok (s, false, []))
    ∧ (s.destFiles.any (fun pv => pv.1 = path_join s.db.destination nn) = false →
      ImageSort.handle_file s m = Except.ok
        ({ s with destFiles := s.destFiles ++
          [(path_join s.db.destination nn, m.sha256sum)] },
          false, [Ev.copied])) := by
  have hins := insert_dup_false s.db m mdl t hm ht hreg hdup
  constructor
  · intro hex
    have hcopy : ImageSort.copy { s with db := s.db } m =
        Except.ok (s, some false, []) := copy_exists_skip s m nn hnn hex
    simp only [ImageSort.handle_file, hins, hcopy]
    rfl
  · intro habs
    have hcopy : ImageSort.copy { s with db := s.db } m =
        Except.ok ({ s with destFiles := s.destFiles ++
          [(path_join s.db.destination nn, m.sha256sum)] }, none, [Ev.copied]) :=
      copy_absent s m nn hnn habs
    simp only [ImageSort.handle_file, hins, hcopy]
    rfl

/-- Witness for C3 (amended): with the duplicate's destination file present
on disk, `_handle_file` neither inserts nor copies and leaves the state
untouched. -/
theorem handle_duplicate_spec_witness :
    ImageSort.handle_file dupStatePresent exPhoto =
      Except.ok (dupStatePresent, false, []) :=
  (handle_duplicate_spec dupStatePresent exPhoto "ABC123" ⟨2023, 5, 1, 10, 0, 0⟩
    "abc/2023-05/2023-05-01 10.00.00.abc.jpg"
    (by decide) (by decide) (by decide) (by decide) (by decide)).1 (by decide)

/-- Counterexample for C6: on a fresh, recognized, non-duplicate file the
event trace of `_handle_file` is `[Ev.inserted, Ev.copied]` — the catalog
insert executes before the copy of the file bytes, not after it as the
claimed state machine `... → Deduplicated → Copied → Cataloged` requires. -/
theorem handle_order_cex :
    ImageSort.handle_file freshState exPhoto =
      Except.ok (⟨{ exDb with media := [⟨"photo.jpg",
        "abc/2023-05/2023-05-01 10.00.00.abc.jpg", "f1a2", 2048,
        ⟨2023, 5, 1, 10, 0, 0⟩, 1⟩] },
        [("/dest/abc/2023-05/2023-05-01 10.00.00.abc.jpg", "f1a2")], 0⟩,
        true, [Ev.inserted, Ev.copied]) := by
  decide

/-- Claim C6 (amended): for every non-duplicate recognized file (metadata
resolved, model registered, no canonical-name clash, destination file
absent), `_handle_file` emits the trace `[Ev.inserted, Ev.copied]`: the
catalog insert — which embeds the dedup check — happens first and the copy
of the file bytes to the destination tree second. -/
theorem handle_insert_before_copy (s : SysState) (m : SrcFile) (mdl : String)
    (t : DateTime) (nn : String) (cid : Nat)
    (hm : Media.model m = Except.ok mdl)
    (ht : Media.date m = Except.ok t)
    (hreg : s.db.camera_model_exists mdl = true)
    (hnn : Media.newname s.db m = Except.ok nn)
    (hcid : s.db.camera_id_from_model mdl = some cid)
    (hfresh : s.db.file_exists_in_db m = false)
    (hnoclash : ∀ r ∈ s.db.media, r.filename_new ≠ nn)
    (habs : s.destFiles.any
      (fun pv => pv.1 = path_join s.db.destination nn) = false) :
    ImageSort.handle_file s m = Except.ok
      (⟨{ s.db with media := s.db.media ++
          [⟨basename m.filename, nn, m.sha256sum, m.size, t, cid⟩] },
        s.destFiles ++ [(path_join s.db.destination nn, m.sha256sum)],
        s.count⟩, true, [Ev.inserted, Ev.copied]) := by
  obtain ⟨cid', hcid', hins⟩ := insert_fresh s.db m mdl t hm ht hreg nn hnn
    hfresh hnoclash
  rw [hcid] at hcid'
  obtain rfl : cid = cid' := Option.some_injective _ hcid'
  have hnn1 : Media.newname ({ s.db with media := s.db.media ++
      [⟨basename m.filename, nn, m.sha256sum, m.size, t, cid⟩] } : DB) m =
      Except.ok nn := hnn
  have hcopy := copy_absent ⟨{ s.db with media := s.db.media ++
      [⟨basename m.filename, nn, m.sha256sum, m.size, t, cid⟩] },
      s.destFiles, s.count⟩ m nn hnn1 habs
  simp only [ImageSort.handle_file, hins, hcopy]
  rfl

/-- Witness for C6 (amended): the fresh-file scenario evaluated concretely,
with the insert event preceding the copy event. -/
theorem handle_insert_before_copy_witness :
    ImageSort.handle_file freshState exPhoto =
      Except.ok (⟨{ exDb with media := [⟨"photo.jpg",
        "abc/2023-05/2023-05-01 10.00.00.abc.jpg", "f1a2", 2048,
        ⟨2023, 5, 1, 10, 0, 0⟩, 1⟩] },
        [("/dest/abc/2023-05/2023-05-01 10.00.00.abc.jpg", "f1a2")], 0⟩,
        true, [Ev.inserted, Ev.copied]) := by
  have h := handle_insert_before_copy freshState exPhoto "ABC123"
    ⟨2023, 5, 1, 10, 0, 0⟩ "abc/2023-05/2023-05-01 10.00.00.abc.jpg" 1
    (by decide) (by decide) (by decide) (by decide) (by decide) (by decide)
    (by decide) (by decide)
  exact h.trans (by decide)

/-- Claim C4 (code bug): a verify run over a catalog whose destination file
is missing is supposed to delete that row, but the deletion branch calls
`self.db.delete_file(...)` — a method the `DB` class never defines — so the
run aborts with `AttributeError` and deletes nothing, whether or not
checksum mode is on.  Here `dupDb` holds one row and the destination tree is
empty. -/
theorem verify_missing_destination_attribute_error :
    ImageSort.verify dupDb [] false =
      Except.error PyErr.attributeErrorDeleteFile ∧
    ImageSort.verify dupDb [] true =
      Except.error PyErr.attributeErrorDeleteFile := by
  decide

/-- Claim C5 (code bug): with checksum verification enabled and the
destination file's recomputed hash differing from the stored fingerprint,
the mismatch branch calls `self.checksum_dont_match(...)` — a method the
`ImageSort` class never defines — so the run aborts with `AttributeError`
instead of reporting the mismatch; the row does survive, but only because
the run crashes.  Without checksum mode the same state passes silently. -/
theorem verify_checksum_mismatch_attribute_error :
    ImageSort.verify dupDb alteredFs true =
      Except.error PyErr.attributeErrorChecksumDontMatch ∧
    ImageSort.verify dupDb alteredFs false = Except.ok () := by
  decide

/-- Claim C10: `Media.__init__` raises `Exception` when no filename (or a
falsy empty one) is provided, raises `FileNotFoundError` when the path is
absent from disk, and on success performs no metadata extraction or hashing:
every lazily derived field starts unset. -/
theorem media_init_spec (fn : Option String) (fs : List String) :
    ((fn = none ∨ fn = some "") →
      Media.init fn fs = Except.error PyErr.noFilename)
    ∧ (∀ f, fn = some f → f ≠ "" → fs.contains f = false →
        Media.init fn fs = Except.error PyErr.fileNotFound)
    ∧ (∀ f, fn = some f → f ≠ "" → fs.contains f = true →
        Media.init fn fs =
          Except.ok ⟨f, none, none, none, none, none, none, none, none⟩) := by
  refine ⟨?_, ?_, ?_⟩
  · rintro (rfl | rfl) <;> simp [Media.init]
  · rintro f rfl hne habs
    have habs' : f ∉ fs := by simpa using habs
    simp [Media.init, hne, habs']
  · rintro f rfl hne hmem
    have hmem' : f ∈ fs := by simpa using hmem
    simp [Media.init, hne, hmem']

/-! ### State-shape helper lemmas for the scan loop -/

theorem insert_image_shape (db : DB) (m : SrcFile) (db' : DB) (b : Bool)
    (h : db.insert_image_into_db m = Except.ok (db', b)) :
    db'.committed_media = db.committed_media ∧ db'.cameras = db.cameras ∧
    db'.destination = db.destination ∧
    (db'.media = db.media ∨ ∃ row, db'.media = db.media ++ [row]) := by
  unfold DB.insert_image_into_db at h
  repeat (any_goals split at h)
  all_goals first
    | (rw [Except.ok.injEq, Prod.mk.injEq] at h
       obtain ⟨h1, h2⟩ := h
       subst h1
       first
         | exact ⟨rfl, rfl, rfl, Or.inl rfl⟩
         | exact ⟨rfl, rfl, rfl, Or.inr ⟨_, rfl⟩⟩)
    | simp at h

theorem copy_shape (s : SysState) (m : SrcFile) (s2 : SysState)
    (c : Option Bool) (ev : List Ev)
    (h : ImageSort.copy s m = Except.ok (s2, c, ev)) :
    s2.db = s.db ∧ s2.count = s.count := by
  unfold ImageSort.copy at h
  split at h
  · simp at h
  · split at h <;>
      (rw [Except.ok.injEq, Prod.mk.injEq] at h
       obtain ⟨h1, -⟩ := h
       subst h1
       exact ⟨rfl, rfl⟩)

theorem handle_file_shape (s : SysState) (m : SrcFile) (s2 : SysState)
    (u : Bool) (ev : List Ev)
    (h : ImageSort.handle_file s m = Except.ok (s2, u, ev)) :
    s2.db.committed_media = s.db.committed_media ∧
    s2.db.cameras = s.db.cameras ∧
    s2.db.destination = s.db.destination ∧
    (s2.db.media = s.db.media ∨ ∃ row, s2.db.media = s.db.media ++ [row]) ∧
    s2.count = s.count := by
  unfold ImageSort.handle_file at h
  split at h
  · simp at h
  next db' inserted hins =>
    split at h
    · simp at h
    next s3 copied ev2 hcopy =>
      rw [Except.ok.injEq, Prod.mk.injEq] at h
      obtain ⟨h1, -⟩ := h
      subst h1
      obtain ⟨hc1, hc2⟩ := copy_shape _ m _ copied ev2 hcopy
      obtain ⟨i1, i2, i3, i4⟩ := insert_image_shape s.db m db' inserted hins
      rw [hc1]
      exact ⟨i1, i2, i3, i4, hc2⟩

theorem add_camera_shape (db : DB) (mk mdl nm d : String) (db' : DB)
    (h : db.add_camera mk mdl nm d = Except.ok db') :
    db'.committed_media = db.media ∧ db'.media = db.media := by
  unfold DB.add_camera at h
  split at h
  · simp at h
  · rw [Except.ok.injEq] at h
    subst h
    exact ⟨rfl, rfl⟩

theorem after_camera_mono (s : SysState) (m : SrcFile) (ev1 : List Ev)
    (hinv : ∀ r ∈ s.db.committed_media, r ∈ s.db.media) :
    (∀ r ∈ s.db.committed_media,
      r ∈ (ImageSort.after_camera s m ev1).1.db.committed_media)
    ∧ (∀ r ∈ (ImageSort.after_camera s m ev1).1.db.committed_media,
        r ∈ (ImageSort.after_camera s m ev1).1.db.media) := by
  unfold ImageSort.after_camera
  split
  · exact ⟨fun r hr => hr, hinv⟩
  next s2 updated ev2 heq =>
    obtain ⟨hc, -, -, hm, -⟩ := handle_file_shape s m s2 updated ev2 heq
    have hmm : ∀ r ∈ s.db.media, r ∈ s2.db.media := by
      intro r hr
      rcases hm with h | ⟨row, h⟩
      · rw [h]; exact hr
      · rw [h]; exact List.mem_append_left _ hr
    split
    · split
      · refine ⟨?_, fun r hr => hr⟩
        intro r hr
        exact hmm r (hinv r (hc ▸ hr))
      · refine ⟨?_, ?_⟩
        · intro r hr
          rw [hc]
          exact hr
        · intro r hr
          rw [hc] at hr
          exact hmm r (hinv r hr)
    · refine ⟨?_, ?_⟩
      · intro r hr
        rw [hc]
        exact hr
      · intro r hr
        rw [hc] at hr
        exact hmm r (hinv r hr)

theorem process_one_mono (resolver : String → String × String)
    (s : SysState) (m : SrcFile)
    (hinv : ∀ r ∈ s.db.committed_media, r ∈ s.db.media) :
    (∀ r ∈ s.db.committed_media,
      r ∈ (ImageSort.process_one resolver s m).1.db.committed_media)
    ∧ (∀ r ∈ (ImageSort.process_one resolver s m).1.db.committed_media,
        r ∈ (ImageSort.process_one resolver s m).1.db.media) := by
  unfold ImageSort.process_one
  split
  · exact ⟨fun r hr => hr, hinv⟩
  split
  · exact ⟨fun r hr => hr, hinv⟩
  next mdl hmdl =>
    split
    · split
      · exact ⟨fun r hr => hr, hinv⟩
      next mk hmk =>
        split
        · exact ⟨fun r hr => hr, hinv⟩
        next db' hdb' =>
          obtain ⟨ha1, ha2⟩ := add_camera_shape s.db mk mdl _ _ db' hdb'
          have hinv' : ∀ r ∈ ({ s with db := db' } : SysState).db.committed_media,
              r ∈ ({ s with db := db' } : SysState).db.media := by
            intro r hr
            rw [ha2]
            rw [ha1] at hr
            exact hr
          obtain ⟨g1, g2⟩ := after_camera_mono { s with db := db' } m
            [Ev.cameraAdded, Ev.flush] hinv'
          refine ⟨?_, g2⟩
          intro r hr
          refine g1 r ?_
          rw [ha1]
          exact hinv r hr
    · exact after_camera_mono s m [] hinv

theorem sort_files_mono (resolver : String → String × String)
    (fs : List SrcFile) :
    ∀ (s : SysState), (∀ r ∈ s.db.committed_media, r ∈ s.db.media) →
      (∀ r ∈ s.db.committed_media,
        r ∈ (ImageSort.sort_files resolver s fs).1.db.committed_media)
      ∧ (∀ r ∈ (ImageSort.sort_files resolver s fs).1.db.committed_media,
          r ∈ (ImageSort.sort_files resolver s fs).1.db.media) := by
  induction fs with
  | nil => intro s hinv; exact ⟨fun r hr => hr, hinv⟩
  | cons m rest ih =>
    intro s hinv
    obtain ⟨p1, p2⟩ := process_one_mono resolver s m hinv
    rw [ImageSort.sort_files]
    rcases hp : ImageSort.process_one resolver s m with ⟨s', ev, err⟩
    rw [hp] at p1 p2
    cases err with
    | some e => exact ⟨p1, p2⟩
    | none =>
      obtain ⟨q1, q2⟩ := ih s' p2
      exact ⟨fun r hr => q1 r (p1 r hr), q2⟩

theorem sort_files_append_of_error (resolver : String → String × String)
    (fs1 fs2 : List SrcFile) :
    ∀ (s s1 : SysState) (t1 : List Ev) (e : PyErr),
      ImageSort.sort_files resolver s fs1 = (s1, t1, some e) →
      ImageSort.sort_files resolver s (fs1 ++ fs2) = (s1, t1, some e) := by
  induction fs1 with
  | nil =>
    intro s s1 t1 e h
    rw [ImageSort.sort_files] at h
    simp at h
  | cons m rest ih =>
    intro s s1 t1 e h
    rw [List.cons_append, ImageSort.sort_files]
    rw [ImageSort.sort_files] at h
    rcases hp : ImageSort.process_one resolver s m with ⟨s', ev, err⟩
    rw [hp] at h
    cases err with
    | some e' => exact h
    | none =>
      simp only at h ⊢
      rcases hr : ImageSort.sort_files resolver s' rest with ⟨sr, tr, er⟩
      rw [hr] at h
      rw [Prod.mk.injEq, Prod.mk.injEq] at h
      obtain ⟨hs1, ht1, he1⟩ := h
      subst hs1
      subst ht1
      subst he1
      rw [ih s' sr tr e hr]

/-- Claim C7: an unhandled per-file error aborts the entire remaining scan:
when processing the files `fs1` raises `e`, appending further files `fs2`
changes nothing — they are never processed — and the whole `sort` run
(including its skipped final commit) returns the same aborted result;
moreover every row durably committed when the scan started is still in the
committed catalog at the abort (and, `sort_files` being universally
quantified over the start state, the same holds from any mid-scan flush
point on). -/
theorem sort_abort_preserves_committed (resolver : String → String × String)
    (s : SysState) (fs1 fs2 : List SrcFile) (s1 : SysState) (t1 : List Ev)
    (e : PyErr)
    (h : ImageSort.sort_files resolver s fs1 = (s1, t1, some e))
    (hinv : ∀ r ∈ s.db.committed_media, r ∈ s.db.media) :
    ImageSort.sort_files resolver s (fs1 ++ fs2) = (s1, t1, some e)
    ∧ ImageSort.sort resolver s (fs1 ++ fs2) = (s1, t1, some e)
    ∧ (∀ r ∈ s.db.committed_media, r ∈ s1.db.committed_media) := by
  have hap := sort_files_append_of_error resolver fs1 fs2 s s1 t1 e h
  refine ⟨hap, ?_, ?_⟩
  · unfold ImageSort.sort
    rw [hap]
  · have hmono := (sort_files_mono resolver fs1 s hinv).1
    rw [h] at hmono
    exact hmono

/-- Witness for C7: scanning `[exPhoto, badFile, exPhoto]` aborts at
`badFile` with `KeyError` (missing capture-timestamp tag), the third file is
never processed, and the previously committed `preRow` survives the abort. -/
theorem sort_abort_preserves_committed_witness :
    ImageSort.sort idResolver c7Start [exPhoto, badFile, exPhoto] =
      (c7Abort, [Ev.inserted, Ev.copied], some PyErr.keyError)
    ∧ (∀ r ∈ c7Start.db.committed_media, r ∈ c7Abort.db.committed_media) := by
  have h := sort_abort_preserves_committed idResolver c7Start [exPhoto, badFile]
    [exPhoto] c7Abort [Ev.inserted, Ev.copied] PyErr.keyError
    (by decide) (by decide)
  exact ⟨h.2.1, h.2.2⟩

/-! ### Flush-cadence analysis for C8

`cam_ins_flush_evts` keeps the catalog-relevant events of a scan trace
(insertions, camera additions, and durability flushes); `ins_flush_evts`
keeps only insertions and flushes, the events the claim speaks about. -/

theorem copy_events (s : SysState) (m : SrcFile) (s2 : SysState)
    (c : Option Bool) (ev : List Ev)
    (h : ImageSort.copy s m = Except.ok (s2, c, ev)) :
    (c = some false ∧ ev = []) ∨ (c = none ∧ ev = [Ev.copied]) := by
  unfold ImageSort.copy at h
  split at h
  · simp at h
  · split at h
    · rw [Except.ok.injEq, Prod.mk.injEq, Prod.mk.injEq] at h
      obtain ⟨-, h2, h3⟩ := h
      exact Or.inl ⟨h2.symm, h3.symm⟩
    · rw [Except.ok.injEq, Prod.mk.injEq, Prod.mk.injEq] at h
      obtain ⟨-, h2, h3⟩ := h
      exact Or.inr ⟨h2.symm, h3.symm⟩

theorem handle_file_events (s : SysState) (m : SrcFile) (s2 : SysState)
    (u : Bool) (ev : List Ev)
    (h : ImageSort.handle_file s m = Except.ok (s2, u, ev)) :
    s2.count = s.count ∧
    ((u = true ∧ cam_ins_flush_evts ev = [Ev.inserted]) ∨
     (u = false ∧ cam_ins_flush_evts ev = [])) := by
  unfold ImageSort.handle_file at h
  split at h
  · simp at h
  next db' inserted hins =>
    split at h
    · simp at h
    next s3 copied ev2 hcopy =>
      rw [Except.ok.injEq, Prod.mk.injEq, Prod.mk.injEq] at h
      obtain ⟨h1, h2, h3⟩ := h
      subst h1
      obtain ⟨-, hcnt⟩ := copy_shape _ m _ copied ev2 hcopy
      obtain hce := copy_events _ m _ copied ev2 hcopy
      refine ⟨hcnt, ?_⟩
      subst h3
      rcases hce with ⟨rfl, rfl⟩ | ⟨rfl, rfl⟩ <;>
        (cases inserted <;> subst h2 <;> simp [cam_ins_flush_evts])

theorem after_camera_events (s : SysState) (m : SrcFile) (ev1 : List Ev)
    (s' : SysState) (ev : List Ev) (err : Option PyErr)
    (hp : ImageSort.after_camera s m ev1 = (s', ev, err)) :
    (ev = ev1 ∧ s'.count = s.count)
    ∨ (∃ ev2, ev = ev1 ++ ev2 ∧ cam_ins_flush_evts ev2 = [] ∧
        s'.count = s.count)
    ∨ (∃ ev2, ev = ev1 ++ ev2 ∧ cam_ins_flush_evts ev2 = [Ev.inserted] ∧
        s'.count = s.count + 1 ∧ (s.count + 1) % update_threshold ≠ 0)
    ∨ (∃ ev2, ev = ev1 ++ ev2 ∧
        cam_ins_flush_evts ev2 = [Ev.inserted, Ev.flush] ∧
        s'.count = s.count + 1 ∧ (s.count + 1) % update_threshold = 0) := by
  unfold ImageSort.after_camera at hp
  split at hp
  · rw [Prod.mk.injEq, Prod.mk.injEq] at hp
    obtain ⟨h1, h2, -⟩ := hp
    exact Or.inl ⟨h2.symm, by rw [← h1]⟩
  next s2 updated ev2 heq =>
    obtain ⟨hcnt, hu⟩ := handle_file_events s m s2 updated ev2 heq
    split at hp
    next hupd =>
      split at hp
      next hq =>
        rw [Prod.mk.injEq, Prod.mk.injEq] at hp
        obtain ⟨h1, h2, -⟩ := hp
        refine Or.inr (Or.inr (Or.inr ⟨ev2 ++ [Ev.flush], ?_, ?_, ?_, ?_⟩))
        · rw [← h2, List.append_assoc]
        · rcases hu with ⟨-, hev⟩ | ⟨hfalse, -⟩
          · rw [cam_ins_flush_evts, List.filter_append]
            rw [cam_ins_flush_evts] at hev
            rw [hev]
            rfl
          · rw [hupd] at hfalse; simp at hfalse
        · rw [← h1]
          simp [hcnt]
        · rw [← hcnt]
          exact hq
      next hq =>
        rw [Prod.mk.injEq, Prod.mk.injEq] at hp
        obtain ⟨h1, h2, -⟩ := hp
        refine Or.inr (Or.inr (Or.inl ⟨ev2, h2.symm, ?_, ?_, ?_⟩))
        · rcases hu with ⟨-, hev⟩ | ⟨hfalse, -⟩
          · exact hev
          · rw [hupd] at hfalse; simp at hfalse
        · rw [← h1]
          simp [hcnt]
        · rw [← hcnt]
          exact hq
    next hupd =>
      rw [Prod.mk.injEq, Prod.mk.injEq] at hp
      obtain ⟨h1, h2, -⟩ := hp
      refine Or.inr (Or.inl ⟨ev2, h2.symm, ?_, ?_⟩)
      · rcases hu with ⟨htrue, -⟩ | ⟨-, hev⟩
        · rw [htrue] at hupd; simp at hupd
        · exact hev
      · rw [← h1, hcnt]

theorem process_one_events (resolver : String → String × String)
    (s : SysState) (m : SrcFile) (s' : SysState) (ev : List Ev)
    (err : Option PyErr)
    (hp : ImageSort.process_one resolver s m = (s', ev, err)) :
    (cam_ins_flush_evts ev = [] ∧ s'.count = s.count)
    ∨ (cam_ins_flush_evts ev = [Ev.cameraAdded, Ev.flush] ∧ s'.count = s.count)
    ∨ ((cam_ins_flush_evts ev = [Ev.cameraAdded, Ev.flush, Ev.inserted] ∨
        cam_ins_flush_evts ev = [Ev.inserted]) ∧
        s'.count = s.count + 1 ∧ (s.count + 1) % update_threshold ≠ 0)
    ∨ ((cam_ins_flush_evts ev = [Ev.cameraAdded, Ev.flush, Ev.inserted, Ev.flush] ∨
        cam_ins_flush_evts ev = [Ev.inserted, Ev.flush]) ∧
        s'.count = s.count + 1 ∧ (s.count + 1) % update_threshold = 0) := by
  unfold ImageSort.process_one at hp
  split at hp
  · rw [Prod.mk.injEq, Prod.mk.injEq] at hp
    obtain ⟨h1, h2, -⟩ := hp
    exact Or.inl ⟨by rw [← h2]; rfl, by rw [← h1]⟩
  split at hp
  · rw [Prod.mk.injEq, Prod.mk.injEq] at hp
    obtain ⟨h1, h2, -⟩ := hp
    exact Or.inl ⟨by rw [← h2]; rfl, by rw [← h1]⟩
  next mdl hmdl =>
    split at hp
    · split at hp
      · rw [Prod.mk.injEq, Prod.mk.injEq] at hp
        obtain ⟨h1, h2, -⟩ := hp
        exact Or.inl ⟨by rw [← h2]; rfl, by rw [← h1]⟩
      next mk hmk =>
        split at hp
        · rw [Prod.mk.injEq, Prod.mk.injEq] at hp
          obtain ⟨h1, h2, -⟩ := hp
          exact Or.inl ⟨by rw [← h2]; rfl, by rw [← h1]⟩
        next db' hdb' =>
          rcases after_camera_events _ m _ _ _ _ hp with
            ⟨hev, hcnt⟩ | ⟨ev2, hev, hf, hcnt⟩ | ⟨ev2, hev, hf, hcnt, hq⟩ |
            ⟨ev2, hev, hf, hcnt, hq⟩
          · refine Or.inr (Or.inl ⟨?_, hcnt⟩)
            rw [hev]
            rfl
          · refine Or.inr (Or.inl ⟨?_, hcnt⟩)
            rw [hev, cam_ins_flush_evts, List.filter_append]
            rw [cam_ins_flush_evts] at hf
            rw [hf]
            rfl
          · refine Or.inr (Or.inr (Or.inl ⟨Or.inl ?_, hcnt, hq⟩))
            rw [hev, cam_ins_flush_evts, List.filter_append]
            rw [cam_ins_flush_evts] at hf
            rw [hf]
            rfl
          · refine Or.inr (Or.inr (Or.inr ⟨Or.inl ?_, hcnt, hq⟩))
            rw [hev, cam_ins_flush_evts, List.filter_append]
            rw [cam_ins_flush_evts] at hf
            rw [hf]
            rfl
    · rcases after_camera_events _ m _ _ _ _ hp with
        ⟨hev, hcnt⟩ | ⟨ev2, hev, hf, hcnt⟩ | ⟨ev2, hev, hf, hcnt, hq⟩ |
        ⟨ev2, hev, hf, hcnt, hq⟩
      · exact Or.inl ⟨by rw [hev]; rfl, hcnt⟩
      · refine Or.inl ⟨?_, hcnt⟩
        rw [hev, List.nil_append]
        exact hf
      · refine Or.inr (Or.inr (Or.inl ⟨Or.inr ?_, hcnt, hq⟩))
        rw [hev, List.nil_append]
        exact hf
      · refine Or.inr (Or.inr (Or.inr ⟨Or.inr ?_, hcnt, hq⟩))
        rw [hev, List.nil_append]
        exact hf

theorem flush_discipline_cam (c : Nat) (T : List Ev) :
    flush_discipline c (Ev.cameraAdded :: Ev.flush :: T) =
      flush_discipline c T := rfl

theorem flush_discipline_ins_q (c : Nat) (T : List Ev)
    (hq : (c + 1) % update_threshold = 0) :
    flush_discipline c (Ev.inserted :: Ev.flush :: T) =
      flush_discipline (c + 1) T := by
  simp [flush_discipline, hq]

theorem flush_discipline_ins_nq (c : Nat) (T : List Ev)
    (hq : (c + 1) % update_threshold ≠ 0) (hT : block_headed T = true) :
    flush_discipline c (Ev.inserted :: T) = flush_discipline (c + 1) T := by
  cases T with
  | nil => simp [flush_discipline, hq]
  | cons e t =>
    cases e
    · simp [flush_discipline, hq]
    · simp [block_headed] at hT
    · simp [flush_discipline, hq]
    · simp [block_headed] at hT

theorem sort_files_flush_aux (resolver : String → String × String)
    (fs : List SrcFile) : ∀ s : SysState,
    flush_discipline s.count
      (cam_ins_flush_evts (ImageSort.sort_files resolver s fs).2.1) = true
    ∧ block_headed
        (cam_ins_flush_evts (ImageSort.sort_files resolver s fs).2.1) = true := by
  induction fs with
  | nil => intro s; exact ⟨rfl, rfl⟩
  | cons m rest ih =>
    intro s
    rw [ImageSort.sort_files]
    rcases hp : ImageSort.process_one resolver s m with ⟨s', ev, err⟩
    have hsh := process_one_events resolver s m s' ev err hp
    cases err with
    | some e =>
      simp only
      rcases hsh with ⟨hf, -⟩ | ⟨hf, -⟩ | ⟨hf | hf, -, hq⟩ | ⟨hf | hf, -, hq⟩
      · rw [hf]; exact ⟨rfl, rfl⟩
      · rw [hf]; exact ⟨rfl, rfl⟩
      · rw [hf]; exact ⟨by simp [flush_discipline, hq], rfl⟩
      · rw [hf]; exact ⟨by simp [flush_discipline, hq], rfl⟩
      · rw [hf]; exact ⟨by simp [flush_discipline, hq], rfl⟩
      · rw [hf]; exact ⟨by simp [flush_discipline, hq], rfl⟩
    | none =>
      simp only
      obtain ⟨ih1, ih2⟩ := ih s'
      rw [cam_ins_flush_evts, List.filter_append]
      rw [cam_ins_flush_evts] at ih1 ih2
      rcases hsh with ⟨hf, hc⟩ | ⟨hf, hc⟩ | ⟨hf | hf, hc, hq⟩ | ⟨hf | hf, hc, hq⟩ <;>
          rw [cam_ins_flush_evts] at hf <;> rw [hf]
      · rw [List.nil_append, ← hc]
        exact ⟨ih1, ih2⟩
      · refine ⟨?_, rfl⟩
        rw [List.cons_append, List.cons_append, List.nil_append,
          flush_discipline_cam, ← hc]
        exact ih1
      · refine ⟨?_, rfl⟩
        rw [List.cons_append, List.cons_append, List.cons_append,
          List.nil_append, flush_discipline_cam,
          flush_discipline_ins_nq s.count _ hq ih2, ← hc]
        exact ih1
      · refine ⟨?_, rfl⟩
        rw [List.cons_append, List.nil_append,
          flush_discipline_ins_nq s.count _ hq ih2, ← hc]
        exact ih1
      · refine ⟨?_, rfl⟩
        rw [List.cons_append, List.cons_append, List.cons_append,
          List.cons_append, List.nil_append, flush_discipline_cam,
          flush_discipline_ins_q s.count _ hq, ← hc]
        exact ih1
      · refine ⟨?_, rfl⟩
        rw [List.cons_append, List.cons_append, List.nil_append,
          flush_discipline_ins_q s.count _ hq, ← hc]
        exact ih1

/-- Counterexample for C8: a successful two-file scan in which the second
file carries a newly seen camera model.  `add_camera` commits the
connection, flushing the buffered catalog write of the first file while the
successful-insertion count is 1 — not a multiple of 25 — so the claimed
"flush exactly at multiples of 25" discipline evaluates to false on the
insert/flush event trace of the scan. -/
theorem flush_claim_cex :
    (ImageSort.sort_files idResolver freshState [exPhoto, newCamFile]).2.2 = none ∧
    (ins_flush_evts
      (ImageSort.sort_files idResolver freshState [exPhoto, newCamFile]).2.1) =
      [Ev.inserted, Ev.flush, Ev.inserted] ∧
    flush_only_at_threshold freshState.count
      (ins_flush_evts
        (ImageSort.sort_files idResolver freshState [exPhoto, newCamFile]).2.1) =
      false := by
  decide

/-- Claim C8 (amended): during a scan the buffered catalog writes are
flushed when the count of successful insertions reaches a multiple of 25
(`update_threshold`), additionally whenever a newly seen camera is
registered — `add_camera` commits the connection — and never otherwise; one
unconditional flush follows at the end of a scan that completes without
error, and none is forced per individual file. -/
theorem sort_flush_discipline (resolver : String → String × String)
    (s : SysState) (fs : List SrcFile) :
    flush_discipline s.count
      (cam_ins_flush_evts (ImageSort.sort_files resolver s fs).2.1) = true
    ∧ (ImageSort.sort resolver s fs).2.1 =
        (ImageSort.sort_files resolver s fs).2.1 ++
          (match (ImageSort.sort_files resolver s fs).2.2 with
           | none => [Ev.flush]
           | some _ => []) := by
  refine ⟨(sort_files_flush_aux resolver fs s).1, ?_⟩
  unfold ImageSort.sort
  rcases h : ImageSort.sort_files resolver s fs with ⟨s', tr, err⟩
  cases err <;> simp

/-- Witness for C10: the three constructor behaviors at concrete inputs. -/
theorem media_init_spec_witness :
    Media.init none [] = Except.error PyErr.noFilename ∧
    Media.init (some "/src/a.jpg") [] = Except.error PyErr.fileNotFound ∧
    Media.init (some "/src/a.jpg") ["/src/a.jpg"] =
      Except.ok ⟨"/src/a.jpg", none, none, none, none, none, none, none, none⟩ :=
  ⟨(media_init_spec none []).1 (Or.inl rfl),
   (media_init_spec (some "/src/a.jpg") []).2.1 "/src/a.jpg" rfl
     (by decide) (by decide),
   (media_init_spec (some "/src/a.jpg") ["/src/a.jpg"]).2.2 "/src/a.jpg" rfl
     (by decide) (by decide)⟩

end ImageSortPy
